import Mathlib

/-
Verification of the geo-data-viewer VS Code extension core.

The extension (src/extension.ts) wires a `view.map` command, a
document-save listener, a document-change listener and a
configuration-change listener; all of them forward to a registry
(`viewManager`) mapping URIs to open webview panels.  The webview script
(web/scripts/map.view.js) posts a handshake message on DOM load and
handles `refresh` messages from the extension host.

The handlers are embedded as pure functions from their inputs (the
event payload, plus the observable editor/registry environment) to the
list of actions they perform — registry operations (`find`, `add`,
`configure`), panel construction, refresh posting and user messages —
together with their return value where the source returns one.  The
registry contents are passed in as a lookup function because
`view.manager.ts` itself is outside the repository snapshot; the
handlers only ever query it through `find`.
-/

namespace GeoDataViewer

/-- A vscode `Uri`, reduced to the two components the extension reads:
its scheme and its file-system path. -/
structure Uri where
  scheme : String
  fsPath : String
deriving DecidableEq, Repr

/-- `uri.with({scheme: s})`: same uri with the scheme replaced. -/
def Uri.withScheme (u : Uri) (s : String) : Uri :=
  { u with scheme := s }

/-- A vscode `TextDocument`: its uri and its full text. -/
structure TextDocument where
  uri : Uri
  text : String
deriving DecidableEq, Repr

/-- One entry of `TextDocumentChangeEvent.contentChanges`. -/
structure ContentChange where
  text : String
deriving DecidableEq, Repr

/-- A vscode `TextDocumentChangeEvent`. -/
structure TextDocumentChangeEvent where
  document : TextDocument
  contentChanges : List ContentChange
deriving DecidableEq, Repr

/-- A vscode `TextEditor`: its document and its (possibly undefined)
view column, numerically valued as in the `ViewColumn` enum. -/
structure TextEditor where
  document : TextDocument
  viewColumn : Option Int
deriving DecidableEq, Repr

/-- The part of the `window` environment the handlers read. -/
structure CommandEnv where
  activeTextEditor : Option TextEditor
deriving DecidableEq, Repr

/-- A vscode configuration-change event (the handler ignores it). -/
structure ConfigChangeEvent where
  affectedSection : String
deriving DecidableEq, Repr

/-- A `MapView` as constructed by `new MapView(viewType, extensionPath,
resource, viewColumn, viewTemplate)` in `createViewMapCommand`. -/
structure MapView where
  viewType : String
  extensionPath : String
  uri : Uri
  viewColumn : Int
  template : Option String
deriving DecidableEq, Repr

/-- Observable actions of the extension-side handlers: registry
operations (`find`/`add`/`configure` of `viewManager`), construction of
a `MapView`, posting a refresh to the panel keyed by a uri, and showing
an information message. -/
inductive Action where
  | findView (u : Uri)
  | createView (v : MapView)
  | addView (v : MapView)
  | configureViews
  | postRefresh (u : Uri)
  | showInfoMessage (s : String)
deriving DecidableEq, Repr

/-- Whether an action constructs a `MapView`. -/
def Action.isCreate : Action → Bool
  | .createView _ => true
  | _ => false

/-- Whether an action is a registry `add`. -/
def Action.isAdd : Action → Bool
  | .addView _ => true
  | _ => false

/-- Whether an action is a registry `find`. -/
def Action.isFind : Action → Bool
  | .findView _ => true
  | _ => false

/-- Whether an action is a registry `configure`. -/
def Action.isConfigure : Action → Bool
  | .configureViews => true
  | _ => false

/-- Whether an action posts a refresh message to a panel. -/
def Action.isPostRefresh : Action → Bool
  | .postRefresh _ => true
  | _ => false

/-- Node's `path.basename`, over the character list: trailing
separators are dropped, then the portion after the last separator is
returned (the empty string when the path is empty or all separators). -/
def basename (p : String) : String :=
  String.mk (((p.data.reverse.dropWhile (fun c => c = '/')).takeWhile
    (fun c => c ≠ '/')).reverse)

/-- JavaScript's `String.prototype.endsWith`, over the character list:
the reversed suffix heads the reversed string. -/
def strEndsWith (s suffix : String) : Bool :=
  suffix.data.reverse.isPrefixOf s.data.reverse

/-- `isGeoDataFile(document)`: true iff the basename of the document
uri's fsPath ends with `.geojson`. -/
def isGeoDataFile (d : TextDocument) : Bool :=
  strEndsWith (basename d.uri.fsPath) ".geojson"

/-- The `workspace.onDidSaveTextDocument` handler registered by
`activate`: on a geo data file it rewrites the uri to the `map` scheme,
queries `viewManager.find`, and calls `mapView.refresh()` exactly when a
view was found.  `reg` is the registry lookup the `find` call answers
with. -/
def onDidSaveTextDocument (reg : Uri → Option MapView)
    (d : TextDocument) : List Action :=
  if isGeoDataFile d then
    let uri := d.uri.withScheme "map"
    Action.findView uri ::
      (match reg uri with
       | some _ => [Action.postRefresh uri]
       | none => [])
  else []

/-- The `workspace.onDidChangeTextDocument` handler registered by
`activate`: on a geo data file it rewrites the uri to the `map` scheme
and queries `viewManager.find`; the guarded branch for a found view with
non-empty `contentChanges` is empty in the source (the `refresh()` call
is commented out behind a refresh-interval TODO), so nothing further
happens. -/
def onDidChangeTextDocument (reg : Uri → Option MapView)
    (e : TextDocumentChangeEvent) : List Action :=
  if isGeoDataFile e.document then
    let uri := e.document.uri.withScheme "map"
    Action.findView uri ::
      (match reg uri with
       | some _ =>
         if e.contentChanges.length > 0 then
           -- mapView.refresh() is commented out in the source
           []
         else []
       | none => [])
  else []

/-- The `workspace.onDidChangeConfiguration` handler registered by
`activate`: it ignores the event and calls `viewManager.configure()`. -/
def onDidChangeConfiguration (_e : ConfigChangeEvent) : List Action :=
  [Action.configureViews]

/-- `getViewColumn()`: starts at `ViewColumn.One` (numerically 1) and
becomes the active editor's view column plus one when an active editor
exists and its view column is truthy (defined and non-zero). -/
def getViewColumn (env : CommandEnv) : Int :=
  match env.activeTextEditor with
  | some activeEditor =>
    match activeEditor.viewColumn with
    | some v => if v ≠ 0 then v + 1 else 1
    | none => 1
  | none => 1

/-- The argument passed to the `view.map` command callback: either a
`Uri` instance or anything else (`undefined` included), which fails the
`resource instanceof Uri` test. -/
inductive CommandArg where
  | uriArg (u : Uri)
  | nonUri
deriving DecidableEq, Repr

/-- The callback registered by `createViewMapCommand`: it computes the
view column, resolves the resource (the argument when it is a `Uri`,
otherwise the active editor's document uri, otherwise it shows an
information message and returns `undefined`), then constructs a new
`MapView`, passes it to `viewManager.add` and returns its webview. -/
def createViewMapCommandHandler (viewType extensionPath : String)
    (viewTemplate : Option String) (env : CommandEnv) (arg : CommandArg) :
    List Action × Option MapView :=
  let viewColumn := getViewColumn env
  match arg with
  | .uriArg u =>
    let mapView : MapView :=
      ⟨viewType, extensionPath, u, viewColumn, viewTemplate⟩
    ([Action.createView mapView, Action.addView mapView], some mapView)
  | .nonUri =>
    match env.activeTextEditor with
    | some activeEditor =>
      let mapView : MapView :=
        ⟨viewType, extensionPath, activeEditor.document.uri, viewColumn,
          viewTemplate⟩
      ([Action.createView mapView, Action.addView mapView], some mapView)
    | none =>
      ([Action.showInfoMessage "Open a geo data file to view map."], none)

/-- What `activate` wires together: the `view.map` command handler and
the three workspace listeners. -/
structure Activation where
  commandId : String
  commandHandler : CommandEnv → CommandArg → List Action × Option MapView
  saveHandler : (Uri → Option MapView) → TextDocument → List Action
  changeHandler : (Uri → Option MapView) → TextDocumentChangeEvent → List Action
  configHandler : ConfigChangeEvent → List Action

/-- The `activate` entrypoint: registers the `view.map` command via
`createViewMapCommand` and the save, change and configuration
listeners. -/
def activate (extensionPath : String) (mapViewTemplate : Option String) :
    Activation :=
  { commandId := "view.map"
  , commandHandler :=
      createViewMapCommandHandler "view.map" extensionPath mapViewTemplate
  , saveHandler := onDidSaveTextDocument
  , changeHandler := onDidChangeTextDocument
  , configHandler := onDidChangeConfiguration }

/-- A `refresh` message as read by the webview's window message
listener: it dereferences `event.data.uri`, `event.data.fileName` and
`event.data.config`.  The `contents` field carries the file contents
the spec says the extension includes in the message. -/
structure RefreshMessage where
  uri : String
  fileName : String
  config : String
  contents : String
deriving DecidableEq, Repr

/-- Modelled from the spec: `MapView.refresh` lives in `src/map.view.ts`,
which is not part of the repository snapshot; the spec says the
extension posts "a refresh message containing the file's path and
contents" to the panel's embedded browser context.  The message also
carries the file name and map config that the webview handler reads. -/
def mapViewRefreshMessage (filePath fileContents fileName mapConfig : String) :
    RefreshMessage :=
  { uri := filePath
  , contents := fileContents
  , fileName := fileName
  , config := mapConfig }

/-- The mutable state of the webview page touched by the script:
the state persisted via `vscode.setState`, the recorded `mapConfig`,
`dataUrl` and `dataFileName` globals, and the `title` and `message`
DOM elements' text. -/
structure WebviewState where
  persistedUri : Option String
  mapConfig : Option String
  titleText : String
  messageText : String
  dataUrl : Option String
  dataFileName : Option String
deriving DecidableEq, Repr

/-- `showMessage(text)`: sets the message element's text. -/
def showMessage (s : WebviewState) (text : String) : WebviewState :=
  { s with messageText := text }

/-- `view(mapConfig)`: shows the empty message; the body of its `try`
block is a TODO in the source, so nothing else happens. -/
def view (s : WebviewState) (_mapConfig : String) : WebviewState :=
  showMessage s ""

/-- A message arriving at the webview's `window` message listener,
dispatched on `event.data.command`. -/
inductive WebviewMessage where
  | showMessageCmd (text : String)
  | refresh (m : RefreshMessage)
  | other
deriving DecidableEq, Repr

/-- The webview's `window` message listener: `showMessage` sets the
message text; `refresh` persists `{uri}` via `vscode.setState`, records
the config, sets the title to the file name, records `dataUrl` and
`dataFileName`, and calls `view(mapConfig)`; other commands fall
through the switch. -/
def onWindowMessage (s : WebviewState) (msg : WebviewMessage) :
    WebviewState :=
  match msg with
  | .showMessageCmd t => showMessage s t
  | .refresh m =>
    let s1 := { s with persistedUri := some m.uri }
    let s2 := { s1 with mapConfig := some m.config }
    let s3 := { s2 with titleText := m.fileName }
    let s4 := { s3 with dataUrl := some m.uri }
    let s5 := { s4 with dataFileName := some m.fileName }
    view s5 m.config
  | .other => s

/-- A message posted by the webview script to the extension host. -/
inductive PostedMessage where
  | refreshCmd
  | loadView (viewName uriStr : String)
deriving DecidableEq, Repr

/-- The body of the `DOMContentLoaded` listener's `try` block:
`acquireVsCodeApi()` (which throws outside a VS Code webview) followed
by posting a single `{command: 'refresh'}` message. -/
def domLoadedBody (acquireVsCodeApi : Except String Unit) :
    Except String (List PostedMessage) :=
  match acquireVsCodeApi with
  | .ok _ => .ok [PostedMessage.refreshCmd]
  | .error e => .error e

/-- The `DOMContentLoaded` listener: runs the body and swallows any
error in its `catch` (posting nothing in that case). -/
def domContentLoadedHandler (acquireVsCodeApi : Except String Unit) :
    List PostedMessage :=
  match domLoadedBody acquireVsCodeApi with
  | .ok msgs => msgs
  | .error _ => []

/-- A sample geo data file uri, used for concrete instances. -/
def sampleUri : Uri := ⟨"file", "/data/us-states.geojson"⟩

/-- The sample uri rewritten to the `map` scheme. -/
def sampleMapUri : Uri := sampleUri.withScheme "map"

/-- A sample geo data document over the sample uri. -/
def sampleDoc : TextDocument := ⟨sampleUri, "geo data"⟩

/-- A sample map view keyed by the sample map uri. -/
def sampleView : MapView := ⟨"view.map", "/ext", sampleMapUri, 1, none⟩

/-- A registry with no panels. -/
def emptyReg : Uri → Option MapView := fun _ => none

/-- A registry holding `sampleView` under the sample map uri. -/
def sampleReg : Uri → Option MapView :=
  fun u => if u = sampleMapUri then some sampleView else none

/-- A registry answering every lookup with `sampleView`. -/
def fullReg : Uri → Option MapView := fun _ => some sampleView

/-- C1 counterexample: saving the geo data file
`/data/us-states.geojson` while no panel is registered for its
`map`-scheme uri posts no refresh and creates no panel, so a refresh
does not reach a panel for every save of a geo data file. -/
theorem save_without_registered_panel_posts_no_refresh :
    isGeoDataFile sampleDoc = true ∧
    (onDidSaveTextDocument emptyReg sampleDoc).any Action.isPostRefresh
      = false ∧
    (onDidSaveTextDocument emptyReg sampleDoc).any Action.isCreate
      = false := by
  decide

/-- C1 (amended): on saving a geo data file the handler resolves the
`map`-scheme uri and queries the registry with it, posts a refresh to
the panel keyed by that uri exactly when one is already registered, and
neither constructs nor adds any panel. -/
theorem save_handler_refresh_iff_panel_registered
    (reg : Uri → Option MapView) (d : TextDocument)
    (h : isGeoDataFile d = true) :
    Action.findView (d.uri.withScheme "map") ∈ onDidSaveTextDocument reg d ∧
    (onDidSaveTextDocument reg d).any Action.isPostRefresh
      = (reg (d.uri.withScheme "map")).isSome ∧
    (onDidSaveTextDocument reg d).all (fun a => !a.isCreate && !a.isAdd)
      = true := by
  cases hreg : reg (d.uri.withScheme "map") <;>
    simp [onDidSaveTextDocument, h, hreg, Action.isPostRefresh,
      Action.isCreate, Action.isAdd]

/-- C1 witness: concrete instance over the sample registry, which does
hold a panel for the sample map uri. -/
theorem save_handler_refresh_iff_panel_registered_witness :
    Action.findView (sampleDoc.uri.withScheme "map")
      ∈ onDidSaveTextDocument sampleReg sampleDoc ∧
    (onDidSaveTextDocument sampleReg sampleDoc).any Action.isPostRefresh
      = (sampleReg (sampleDoc.uri.withScheme "map")).isSome ∧
    (onDidSaveTextDocument sampleReg sampleDoc).all
      (fun a => !a.isCreate && !a.isAdd) = true :=
  save_handler_refresh_iff_panel_registered sampleReg sampleDoc (by decide)

/-- C2 counterexample: invoking `view.map` with no uri argument while
the active editor shows the sample document and a panel is registered
for every uri still constructs a new `MapView` and performs no registry
lookup: the handler does not locate existing panels before creating. -/
theorem view_map_command_creates_despite_registered_panel :
    (fullReg sampleDoc.uri).isSome = true ∧
    ((createViewMapCommandHandler "view.map" "/ext" none
        ⟨some ⟨sampleDoc, some 1⟩⟩ CommandArg.nonUri).1.any Action.isCreate
      = true) ∧
    ((createViewMapCommandHandler "view.map" "/ext" none
        ⟨some ⟨sampleDoc, some 1⟩⟩ CommandArg.nonUri).1.any Action.isFind
      = false) := by
  decide

/-- C2 (amended): with no uri argument and an active editor, the
handler resolves the active editor's document uri and unconditionally
constructs a new `MapView` for it and registers it via `add`; it never
queries the registry for an existing panel. -/
theorem view_map_command_resolves_and_always_adds
    (vt ext : String) (tmpl : Option String) (env : CommandEnv)
    (ed : TextEditor) (h : env.activeTextEditor = some ed) :
    createViewMapCommandHandler vt ext tmpl env CommandArg.nonUri =
      ([Action.createView
          ⟨vt, ext, ed.document.uri, getViewColumn env, tmpl⟩,
        Action.addView
          ⟨vt, ext, ed.document.uri, getViewColumn env, tmpl⟩],
       some ⟨vt, ext, ed.document.uri, getViewColumn env, tmpl⟩) ∧
    (createViewMapCommandHandler vt ext tmpl env CommandArg.nonUri).1.all
      (fun a => !a.isFind) = true := by
  simp [createViewMapCommandHandler, h, Action.isFind]

/-- C2 witness: concrete instance with the sample document active. -/
theorem view_map_command_resolves_and_always_adds_witness :
    createViewMapCommandHandler "view.map" "/ext" none
        ⟨some ⟨sampleDoc, some 1⟩⟩ CommandArg.nonUri =
      ([Action.createView
          ⟨"view.map", "/ext", sampleDoc.uri,
            getViewColumn ⟨some ⟨sampleDoc, some 1⟩⟩, none⟩,
        Action.addView
          ⟨"view.map", "/ext", sampleDoc.uri,
            getViewColumn ⟨some ⟨sampleDoc, some 1⟩⟩, none⟩],
       some ⟨"view.map", "/ext", sampleDoc.uri,
         getViewColumn ⟨some ⟨sampleDoc, some 1⟩⟩, none⟩) ∧
    (createViewMapCommandHandler "view.map" "/ext" none
        ⟨some ⟨sampleDoc, some 1⟩⟩ CommandArg.nonUri).1.all
      (fun a => !a.isFind) = true :=
  view_map_command_resolves_and_always_adds "view.map" "/ext" none
    ⟨some ⟨sampleDoc, some 1⟩⟩ ⟨sampleDoc, some 1⟩ rfl

/-- C3 counterexample: a change event on the sample geo data file with
one content change, while a panel is registered for its map uri, posts
no refresh to the panel. -/
theorem change_with_panel_and_changes_posts_no_refresh :
    isGeoDataFile sampleDoc = true ∧
    (sampleReg (sampleDoc.uri.withScheme "map")).isSome = true ∧
    (⟨sampleDoc, [⟨"edit"⟩]⟩ : TextDocumentChangeEvent).contentChanges.length
      > 0 ∧
    (onDidChangeTextDocument sampleReg ⟨sampleDoc, [⟨"edit"⟩]⟩).any
      Action.isPostRefresh = false := by
  decide

/-- C3 (amended): the change handler queries the registry on geo data
files but never posts a refresh — the refresh call in its guarded
branch is disabled in the source pending a refresh interval. -/
theorem change_handler_never_posts_refresh
    (reg : Uri → Option MapView) (e : TextDocumentChangeEvent) :
    (onDidChangeTextDocument reg e).all (fun a => !a.isPostRefresh) = true ∧
    (onDidChangeTextDocument reg e).any Action.isFind
      = isGeoDataFile e.document := by
  cases hg : isGeoDataFile e.document <;>
    cases hreg : reg (e.document.uri.withScheme "map") <;>
      simp [onDidChangeTextDocument, hg, hreg, Action.isPostRefresh,
        Action.isFind]

/-- C4: every configuration-change event, whatever setting it affected,
makes the handler call the registry's `configure` exactly once; the
handler constructs and adds no panel. -/
theorem config_change_configures_exactly_once (e : ConfigChangeEvent) :
    onDidChangeConfiguration e = [Action.configureViews] ∧
    (onDidChangeConfiguration e).countP Action.isConfigure = 1 ∧
    (onDidChangeConfiguration e).all
      (fun a => !a.isAdd && !a.isCreate) = true :=
  ⟨rfl, rfl, rfl⟩

/-- The webview state before any message arrives. -/
def initialWebviewState : WebviewState := ⟨none, none, "", "", none, none⟩

/-- A sample refresh message with map config `configA`. -/
def refreshMsgA : RefreshMessage :=
  mapViewRefreshMessage "/data/us-states.geojson" "geo data"
    "us-states.geojson" "configA"

/-- The same refresh message with map config `configB`. -/
def refreshMsgB : RefreshMessage :=
  mapViewRefreshMessage "/data/us-states.geojson" "geo data"
    "us-states.geojson" "configB"

/-- C5 counterexample: two refresh messages that differ only in their
config leave the webview in states that differ only in the recorded
`mapConfig` variable; the view-update routine's output is independent
of the config and merely clears the message text, so no re-render from
the message's config takes place. -/
theorem refresh_handler_ignores_config_for_rendering :
    refreshMsgA.config ≠ refreshMsgB.config ∧
    ({ onWindowMessage initialWebviewState
         (WebviewMessage.refresh refreshMsgA) with mapConfig := none } =
     { onWindowMessage initialWebviewState
         (WebviewMessage.refresh refreshMsgB) with mapConfig := none }) ∧
    view initialWebviewState "configA" = view initialWebviewState "configB" ∧
    (view initialWebviewState "configA").messageText = "" := by
  decide

/-- C5 (amended): the modelled refresh message carries the previewed
file's path and contents; on a `refresh` command the webview persists
the message's uri as its state, records the config, sets the title to
the file name, records uri and file name, and invokes the view-update
routine, which only clears the message text (map rendering is an
unimplemented TODO in the script). -/
theorem refresh_message_and_handler_state
    (filePath fileContents fileName cfg : String) (s : WebviewState) :
    (mapViewRefreshMessage filePath fileContents fileName cfg).uri
      = filePath ∧
    (mapViewRefreshMessage filePath fileContents fileName cfg).contents
      = fileContents ∧
    onWindowMessage s (WebviewMessage.refresh
        (mapViewRefreshMessage filePath fileContents fileName cfg)) =
      { s with
          persistedUri := some filePath
          mapConfig := some cfg
          titleText := fileName
          dataUrl := some filePath
          dataFileName := some fileName
          messageText := "" } :=
  ⟨rfl, rfl, rfl⟩

/-- C6: `activate` registers the `view.map` command, and its handlers
forward to the registry: the command handler performs an `add` exactly
when it returns a webview, the save handler performs a `find` exactly
on geo data files, and the configuration handler calls `configure`. -/
theorem activate_handlers_forward_to_registry
    (ext : String) (tmpl : Option String) :
    (activate ext tmpl).commandId = "view.map" ∧
    (∀ env arg, ((activate ext tmpl).commandHandler env arg).1.any
        Action.isAdd
        = ((activate ext tmpl).commandHandler env arg).2.isSome) ∧
    (∀ reg d, ((activate ext tmpl).saveHandler reg d).any Action.isFind
        = isGeoDataFile d) ∧
    (∀ e, (activate ext tmpl).configHandler e = [Action.configureViews]) := by
  refine ⟨rfl, ?_, ?_, fun e => rfl⟩
  · intro env arg
    cases arg with
    | uriArg u =>
      simp [activate, createViewMapCommandHandler, Action.isAdd]
    | nonUri =>
      cases h : env.activeTextEditor <;>
        simp [activate, createViewMapCommandHandler, h, Action.isAdd]
  · intro reg d
    cases hg : isGeoDataFile d <;>
      cases hreg : reg (d.uri.withScheme "map") <;>
        simp [activate, onDidSaveTextDocument, hg, hreg, Action.isFind]

/-- C7: whether a document is a geo data file is a function of its
fsPath alone — documents with equal fsPath get the same answer, which
is true exactly when the path's basename ends with `.geojson` — and the
save and change handlers never read the document text: changing only
the text changes nothing they do. -/
theorem geo_data_check_reads_path_only :
    (∀ d1 d2 : TextDocument, d1.uri.fsPath = d2.uri.fsPath →
        isGeoDataFile d1 = isGeoDataFile d2) ∧
    (∀ d : TextDocument,
        isGeoDataFile d = strEndsWith (basename d.uri.fsPath) ".geojson") ∧
    (∀ (reg : Uri → Option MapView) (u : Uri) (t1 t2 : String),
        onDidSaveTextDocument reg ⟨u, t1⟩
          = onDidSaveTextDocument reg ⟨u, t2⟩) ∧
    (∀ (reg : Uri → Option MapView) (u : Uri) (t1 t2 : String)
        (cs : List ContentChange),
        onDidChangeTextDocument reg ⟨⟨u, t1⟩, cs⟩
          = onDidChangeTextDocument reg ⟨⟨u, t2⟩, cs⟩) := by
  refine ⟨?_, fun d => rfl, fun reg u t1 t2 => rfl,
    fun reg u t1 t2 cs => rfl⟩
  intro d1 d2 h
  simp [isGeoDataFile, h]

/-- C7 witness: the sample path with two different texts. -/
theorem geo_data_check_reads_path_only_witness :
    isGeoDataFile ⟨⟨"file", "/data/us-states.geojson"⟩, "textA"⟩
      = isGeoDataFile ⟨⟨"file", "/data/us-states.geojson"⟩, "textB"⟩ :=
  geo_data_check_reads_path_only.1
    ⟨⟨"file", "/data/us-states.geojson"⟩, "textA"⟩
    ⟨⟨"file", "/data/us-states.geojson"⟩, "textB"⟩ rfl

/-- C8: every panel the `view.map` command creates gets
`getViewColumn` of the environment as its view column, and that value
is the active editor's view column plus one when an active editor with
a defined view column exists, and `ViewColumn.One` (numerically 1)
otherwise. -/
theorem view_map_panel_view_column
    (vt ext : String) (tmpl : Option String) (env : CommandEnv) :
    (∀ ed v, env.activeTextEditor = some ed → ed.viewColumn = some v →
        getViewColumn env = v + 1) ∧
    (env.activeTextEditor = none → getViewColumn env = 1) ∧
    (∀ ed, env.activeTextEditor = some ed → ed.viewColumn = none →
        getViewColumn env = 1) ∧
    (∀ arg mv, (createViewMapCommandHandler vt ext tmpl env arg).2 = some mv →
        mv.viewColumn = getViewColumn env) := by
  refine ⟨?_, ?_, ?_, ?_⟩
  · intro ed v h1 h2
    by_cases hv : v = 0
    · subst hv
      simp [getViewColumn, h1, h2]
    · simp [getViewColumn, h1, h2, hv]
  · intro h
    simp [getViewColumn, h]
  · intro ed h1 h2
    simp [getViewColumn, h1, h2]
  · intro arg mv hmv
    cases arg with
    | uriArg u =>
      simp only [createViewMapCommandHandler, Option.some.injEq] at hmv
      rw [← hmv]
    | nonUri =>
      cases h : env.activeTextEditor with
      | some ed =>
        simp only [createViewMapCommandHandler, h, Option.some.injEq] at hmv
        rw [← hmv]
      | none =>
        simp [createViewMapCommandHandler, h] at hmv

/-- C8 witness: with the sample document active in column 2 the
computed view column is 3. -/
theorem view_map_panel_view_column_witness :
    getViewColumn ⟨some ⟨sampleDoc, some 2⟩⟩ = 2 + 1 :=
  (view_map_panel_view_column "view.map" "/ext" none
      ⟨some ⟨sampleDoc, some 2⟩⟩).1 ⟨sampleDoc, some 2⟩ 2 rfl rfl

/-- C9: invoking `view.map` with a non-uri argument and no active
editor shows the information message `Open a geo data file to view
map.` and returns `undefined`, constructing and adding nothing. -/
theorem view_map_no_editor_shows_message
    (vt ext : String) (tmpl : Option String) (env : CommandEnv)
    (h : env.activeTextEditor = none) :
    createViewMapCommandHandler vt ext tmpl env CommandArg.nonUri =
      ([Action.showInfoMessage "Open a geo data file to view map."],
        none) ∧
    (createViewMapCommandHandler vt ext tmpl env CommandArg.nonUri).1.all
      (fun a => !a.isAdd && !a.isCreate) = true := by
  simp [createViewMapCommandHandler, h, Action.isAdd, Action.isCreate]

/-- C9 witness: concrete environment with no active editor. -/
theorem view_map_no_editor_shows_message_witness :
    createViewMapCommandHandler "view.map" "/ext" none ⟨none⟩
        CommandArg.nonUri =
      ([Action.showInfoMessage "Open a geo data file to view map."],
        none) ∧
    (createViewMapCommandHandler "view.map" "/ext" none ⟨none⟩
        CommandArg.nonUri).1.all
      (fun a => !a.isAdd && !a.isCreate) = true :=
  view_map_no_editor_shows_message "view.map" "/ext" none ⟨none⟩ rfl

/-- C10: when `acquireVsCodeApi` succeeds the DOM-loaded handler posts
exactly one refresh message, and when it throws (outside a VS Code
webview) the handler posts nothing and swallows the error. -/
theorem dom_loaded_posts_single_refresh (acquire : Except String Unit) :
    (∀ u, acquire = Except.ok u →
        domContentLoadedHandler acquire = [PostedMessage.refreshCmd] ∧
        (domContentLoadedHandler acquire).countP
          (fun m => m == PostedMessage.refreshCmd) = 1) ∧
    (∀ err, acquire = Except.error err →
        domContentLoadedHandler acquire = []) := by
  constructor
  · intro u h
    subst h
    exact ⟨rfl, rfl⟩
  · intro err h
    subst h
    rfl

/-- C10 witness: both outcomes at concrete acquisition results. -/
theorem dom_loaded_posts_single_refresh_witness :
    domContentLoadedHandler (Except.ok ()) = [PostedMessage.refreshCmd] ∧
    domContentLoadedHandler (Except.error "not in vscode") = [] :=
  ⟨((dom_loaded_posts_single_refresh (Except.ok ())).1 () rfl).1,
   (dom_loaded_posts_single_refresh (Except.error "not in vscode")).2
     "not in vscode" rfl⟩

end GeoDataViewer
